import Mathlib

/-!
Shallow embedding of the attendance verification engine of
`src/main.js` (class `EmployeeManagementSystem`): `verifyAttendance`,
`verifyGPSLocation`, the three anti-spoofing checks
(`checkLocationConsistency`, `checkSpeedAnomaly`, `checkAltitudeAnomaly`),
`verifyAttendanceTime`, `verifyAttendancePattern` and
`calculateStandardDeviation`.

Modelling conventions:
* JS numbers are modelled as `ℚ`; a field that JS may leave `undefined`
  is an `Option`.  JS truthiness on a number (`if (x)`) is `x ≠ 0` on a
  present value.
* Collaborator calls that may throw (`getCurrentLocation`,
  `getUserAttendance`) are inputs of type `Except Unit _`; an `.error`
  value is a thrown exception.  The manual-confirmation modal only ever
  resolves, so its outcome is a plain `Bool` input.
* The haversine `calculateDistance` computes with floating-point
  trigonometry; it is kept abstract as a function parameter `dist`
  (`DistFn`), shared by every call site exactly as `this.calculateDistance`
  is in the source.
* `new Date()` is read once per verification; `nowMinutes` is the
  minutes-since-local-midnight of that instant, and `minuteOfDay`
  abstracts the epoch-ms → minutes-since-local-midnight conversion
  (`date.getHours() * 60 + date.getMinutes()`).
* Only the fields of the returned objects that carry decision content
  are modelled (`verified`, `passed`, `method`, `location`, `reason`,
  `metadata.verificationLevel`); the purely informational evidence
  fields are recomputable from the inputs.
-/

namespace Jadid

/-- A location sample as produced by the location provider
(`{latitude, longitude, accuracy, altitude, timestamp}`, timestamp in
epoch milliseconds, altitude possibly absent). -/
structure Location where
  latitude : ℚ
  longitude : ℚ
  accuracy : ℚ
  altitude : Option ℚ
  timestamp : ℚ
  deriving DecidableEq

/-- An attendance record as returned by
`this.attendance.getUserAttendance` and consumed by
`verifyAttendancePattern` (`{type, timestamp}`). -/
structure AttendanceRecord where
  type : String
  timestamp : Option ℚ
  deriving DecidableEq

/-- The `method` field of a verification verdict. -/
inductive Method where
  | gps
  | manual
  | manual_fallback
  deriving DecidableEq

/-- The attendance type passed to `verifyAttendance` (`'check_in'` or
`'check_out'`). -/
inductive CheckType where
  | check_in
  | check_out
  deriving DecidableEq

/-- The abstracted haversine `calculateDistance(lat1, lon1, lat2, lon2)`
(src/main.js:907-922). -/
abbrev DistFn := ℚ → ℚ → ℚ → ℚ → ℚ

/-- Everything one invocation of `verifyAttendance` reads from its
surroundings: configuration (`this.config.GPS`, work-hour settings),
the location provider (`this.gpsTracker`), the history provider
(`this.attendance`) and the manual-confirmation modal. -/
structure Env where
  antiSpoofing : Bool
  dist : DistFn
  officeLat : ℚ
  officeLng : ℚ
  maxDistance : ℚ
  currentLocation : Except Unit (Option Location)
  recentLocations : List Location
  workStart : ℚ
  nowMinutes : ℚ
  minuteOfDay : ℚ → ℚ
  userAttendance : Except Unit (List AttendanceRecord)
  manualOutcome : Bool

/-- Modelled from the spec: `GPSTracker.isInOfficeRange` is defined in
`modules/gps/gps-tracker.js`, which is not among the provided sources
(src/main.js only imports it).  The spec states "Compute great-circle
distance to the configured office point using the haversine formula
… Location is in-range iff distance ≤ configured max distance (default
500 m)".  The source treats the returned value as truthy/falsy (its
`distance` field is used only as metadata), so the model returns `Bool`. -/
def isInOfficeRange (env : Env) (latitude longitude : ℚ) : Bool :=
  decide (env.dist latitude longitude env.officeLat env.officeLng ≤ env.maxDistance)

/-- `checkLocationConsistency(location)` (src/main.js:818-844), reduced
to its `passed` field.  The source reads the provider's recent-location
list, compares against its last element (`recentLocations[length-1]`,
i.e. `getLast?`), and passes iff the distance to it is at most
`maxSpeed (50 m/s) * timeDiff` with `timeDiff` in seconds; with no
prior sample it passes trivially. -/
def checkLocationConsistency (dist : DistFn) (recentLocations : List Location)
    (location : Location) : Bool :=
  match recentLocations.getLast? with
  | some lastLocation =>
      let distance := dist lastLocation.latitude lastLocation.longitude
        location.latitude location.longitude
      let timeDiff := (location.timestamp - lastLocation.timestamp) / 1000
      let maxSpeed : ℚ := 50
      let possibleDistance := maxSpeed * timeDiff
      decide (distance ≤ possibleDistance)
  | none => true

/-- The per-interval speeds computed by `checkSpeedAnomaly`
(src/main.js:846-887): for each consecutive pair of recent locations
with positive elapsed time, distance divided by elapsed seconds. -/
def intervalSpeeds (dist : DistFn) (locs : List Location) : List ℚ :=
  (locs.zip locs.tail).filterMap fun p =>
    let distance := dist p.1.latitude p.1.longitude p.2.latitude p.2.longitude
    let timeDiff := (p.2.timestamp - p.1.timestamp) / 1000
    if 0 < timeDiff then some (distance / timeDiff) else none

/-- `checkSpeedAnomaly(location)` (src/main.js:846-887), reduced to its
`passed` field.  With fewer than two recent samples, or no interval with
positive elapsed time, it passes trivially; otherwise it passes iff the
last interval speed differs from the average interval speed by strictly
less than 20 m/s.  (The `location` argument is accepted but unused, as
in the source.) -/
def checkSpeedAnomaly (dist : DistFn) (recentLocations : List Location)
    (location : Location) : Bool :=
  if 2 ≤ recentLocations.length then
    let speeds := intervalSpeeds dist recentLocations
    match speeds.getLast? with
    | some lastSpeed =>
        let avgSpeed := speeds.sum / speeds.length
        let speedChange := |lastSpeed - avgSpeed|
        decide (speedChange < 20)
    | none => true
  else true

/-- `checkAltitudeAnomaly(location)` (src/main.js:889-905), reduced to
its `passed` field.  `if (location.altitude)` is a JS truthiness test:
an absent altitude — and likewise an altitude of exactly 0 — skips the
range test and passes trivially; otherwise pass iff
`800 ≤ altitude ≤ 2000`. -/
def checkAltitudeAnomaly (location : Location) : Bool :=
  match location.altitude with
  | some altitude =>
      if altitude ≠ 0 then
        decide (800 ≤ altitude ∧ altitude ≤ 2000)
      else true
  | none => true

/-- The result object of `verifyGPSLocation` (src/main.js:769-816):
`verified`, the echoed location (absent on the failure paths) and the
failure `reason` (absent on the success path).  The `metadata` field is
not modelled. -/
structure GPSVerification where
  verified : Bool
  location : Option Location
  reason : Option String
  deriving DecidableEq

/-- `verifyGPSLocation()` (src/main.js:769-816).  Its own `try/catch`
turns a throwing `getCurrentLocation` into a `verified: false` result,
so the function itself never throws.  `!location.latitude` and
`!location.longitude` are truthiness tests, so a coordinate of exactly
0 is rejected as invalid. -/
def verifyGPSLocation (env : Env) : GPSVerification :=
  match env.currentLocation with
  | .error _ =>
      { verified := false, location := none, reason := some "خطا در دریافت موقعیت" }
  | .ok none =>
      { verified := false, location := none, reason := some "موقعیت نامعتبر" }
  | .ok (some location) =>
      if location.latitude = 0 ∨ location.longitude = 0 then
        { verified := false, location := none, reason := some "موقعیت نامعتبر" }
      else if !(isInOfficeRange env location.latitude location.longitude) then
        { verified := false, location := none, reason := some "خارج از محدوده مجاز" }
      else
        let consistency := checkLocationConsistency env.dist env.recentLocations location
        let speed := checkSpeedAnomaly env.dist env.recentLocations location
        let altitude := checkAltitudeAnomaly location
        let allChecksPassed := consistency && speed && altitude
        { verified := allChecksPassed, location := some location, reason := none }

/-- `verifyAttendanceTime(type)` (src/main.js:924-956), reduced to its
`verified` field.  `currentTime` is minutes since local midnight,
`workStart` comes from settings (default 480 = 8:00).  Check-in passes
iff `|currentTime − workStart| ≤ 120`; check-out passes iff
`workStart ≤ currentTime ≤ workStart + 600`. -/
def verifyAttendanceTime (currentTime workStart : ℚ) (type : CheckType) : Bool :=
  match type with
  | .check_in => decide (|currentTime - workStart| ≤ 120)
  | .check_out => decide (workStart ≤ currentTime ∧ currentTime ≤ workStart + 600)

/-- The arithmetic mean `numbers.reduce((a,b) => a+b, 0) / numbers.length`
used by `verifyAttendancePattern` and `calculateStandardDeviation`. -/
def mean (numbers : List ℚ) : ℚ :=
  numbers.sum / numbers.length

/-- The `avgSquareDiff` computed inside `calculateStandardDeviation`
(src/main.js:1004-1009): the mean of the squared deviations from the
mean (the population variance).  The source returns `Math.sqrt` of this
value; the square root is taken where the comparison is stated. -/
def calculateVariance (numbers : List ℚ) : ℚ :=
  let avg := mean numbers
  let squareDiffs := numbers.map fun n => (n - avg) ^ 2
  mean squareDiffs

/-- The `checkInTimes` list of `verifyAttendancePattern`
(src/main.js:969-975): records filtered by
`a.type === 'check_in' && a.timestamp` (truthiness: a timestamp of 0 is
dropped) and mapped to their minute-of-day. -/
def checkInMinutes (minuteOfDay : ℚ → ℚ) (userAttendance : List AttendanceRecord) :
    List ℚ :=
  userAttendance.filterMap fun a =>
    match a.timestamp with
    | some t => if a.type = "check_in" ∧ t ≠ 0 then some (minuteOfDay t) else none
    | none => none

/-- `verifyAttendancePattern(type)` (src/main.js:958-1002), reduced to
its `verified` field.  `getUserAttendance` may throw, which propagates
out of this function (there is no `try` here), hence the `Except`.
With no records at all, or no check-in records with a truthy timestamp,
it passes trivially.  Otherwise the source passes iff
`|currentTime − avgCheckIn| ≤ stdDev * 2` with
`stdDev = Math.sqrt(avgSquareDiff)`; since both sides are nonnegative
this is equivalent to comparing squares, which keeps the computation in
`ℚ` (the equivalence with the square-root form is proved below). -/
def verifyAttendancePattern (minuteOfDay : ℚ → ℚ) (currentTime : ℚ)
    (userAttendance : Except Unit (List AttendanceRecord)) : Except Unit Bool :=
  match userAttendance with
  | .error e => .error e
  | .ok records =>
      if records.length = 0 then .ok true
      else
        let checkInTimes := checkInMinutes minuteOfDay records
        if checkInTimes.length = 0 then .ok true
        else
          let avgCheckIn := mean checkInTimes
          let timeDiff := |currentTime - avgCheckIn|
          .ok (decide (timeDiff ^ 2 ≤ 4 * calculateVariance checkInTimes))

/-- The verification verdict built by `verifyAttendance`
(src/main.js:714-767).  Of the `metadata` mapping only
`verificationLevel` is modelled (`none` = key never written, which
happens exactly on the exception path). -/
structure Verification where
  verified : Bool
  method : Method
  location : Option Location
  verificationLevel : Option String
  deriving DecidableEq

/-- `verifyAttendance(type, options)` (src/main.js:714-767), translated
statement by statement.  The mutable `verification` object is threaded
as `verification0 → verification1 → verification2 → verification3`.
Note the source guards each of the time and pattern contributions with
`if (x.verified)`, so the `verified = verified && x.verified`
assignments only run when `x.verified` is true.  The `catch` is
reachable exactly when `getUserAttendance` throws inside
`verifyAttendancePattern` (the GPS path catches its own errors and the
modal promise only resolves). -/
def verifyAttendance (env : Env) (type : CheckType) : Verification :=
  let verification0 : Verification :=
    { verified := false, method := .manual, location := none, verificationLevel := none }
  -- 1. GPS Verification
  let verification1 :=
    if env.antiSpoofing then
      let gpsVerification := verifyGPSLocation env
      if gpsVerification.verified then
        { verification0 with
          verified := true
          method := .gps
          location := gpsVerification.location }
      else verification0
    else verification0
  -- 2. Time Verification
  let timeVerification := verifyAttendanceTime env.nowMinutes env.workStart type
  let verification2 :=
    if timeVerification then
      { verification1 with verified := verification1.verified && timeVerification }
    else verification1
  -- 3. Pattern Verification (anti-fraud)
  match verifyAttendancePattern env.minuteOfDay env.nowMinutes env.userAttendance with
  | .error _ =>
      -- catch block: fall back to manual, method 'manual_fallback'
      { verification2 with verified := env.manualOutcome, method := .manual_fallback }
  | .ok patternVerified =>
      let verification3 :=
        if patternVerified then
          { verification2 with verified := verification2.verified && patternVerified }
        else verification2
      if verification3.verified then
        { verification3 with verificationLevel := some "high" }
      else
        { verification3 with
          verified := env.manualOutcome
          method := .manual
          verificationLevel := some "low" }

/-- A concrete valid location used by the concrete evaluations below. -/
def baseLoc : Location :=
  { latitude := 35, longitude := 51, accuracy := 10, altitude := none,
    timestamp := 1000000 }

/-- A concrete environment on which every automated check passes:
anti-spoofing on, a valid in-range location (distance 100 ≤ 500), no
recent samples, check-in at minute 485 with work start 480, empty
attendance history, manual confirmation denied. -/
def baseEnv : Env :=
  { antiSpoofing := true
    dist := fun _ _ _ _ => 100
    officeLat := 35
    officeLng := 51
    maxDistance := 500
    currentLocation := .ok (some baseLoc)
    recentLocations := []
    workStart := 480
    nowMinutes := 485
    minuteOfDay := fun t => t
    userAttendance := .ok []
    manualOutcome := false }

/-- The condition under which step 1 of `verifyAttendance` accepts the
GPS method: anti-spoofing is configured on and `verifyGPSLocation`
returned `verified: true`. -/
def gpsAccepted (env : Env) : Bool :=
  env.antiSpoofing && (verifyGPSLocation env).verified

/-- `baseEnv` with the office suddenly 600 m away (beyond the 500 m
maximum) and the manual confirmation granted. -/
def farEnv : Env :=
  { baseEnv with dist := fun _ _ _ _ => 600, manualOutcome := true }

/-- `baseEnv` at minute 700 (11:40), far outside the check-in window
480 ± 120; everything else passes. -/
def timeFailEnv : Env :=
  { baseEnv with nowMinutes := 700 }

/-- `baseEnv` at minute 520 (within the check-in window) but with a
30-day history of check-ins at exactly minute 480, so the pattern check
(standard deviation 0, deviation 40) fails; everything else passes. -/
def patternFailEnv : Env :=
  { baseEnv with
    nowMinutes := 520
    userAttendance := .ok (List.replicate 3 { type := "check_in", timestamp := some 480 }) }

example : (verifyAttendance baseEnv .check_in).verified = true := by
  norm_num [verifyAttendance, verifyGPSLocation, isInOfficeRange,
    checkLocationConsistency, checkSpeedAnomaly, checkAltitudeAnomaly,
    verifyAttendanceTime, verifyAttendancePattern, baseEnv, baseLoc]
example : (verifyAttendance baseEnv .check_in).method = .gps := by
  norm_num [verifyAttendance, verifyGPSLocation, isInOfficeRange,
    checkLocationConsistency, checkSpeedAnomaly, checkAltitudeAnomaly,
    verifyAttendanceTime, verifyAttendancePattern, baseEnv, baseLoc]
example : (verifyAttendance { baseEnv with nowMinutes := 700 } .check_in).verified = true := by
  norm_num [verifyAttendance, verifyGPSLocation, isInOfficeRange,
    checkLocationConsistency, checkSpeedAnomaly, checkAltitudeAnomaly,
    verifyAttendanceTime, verifyAttendancePattern, baseEnv, baseLoc]
example : verifyAttendanceTime 700 480 .check_in = false := by
  norm_num [verifyAttendanceTime]

/-! ### Structural lemmas -/

/-- The pattern check propagates a thrown `getUserAttendance`
unchanged. -/
theorem verifyAttendancePattern_error (minuteOfDay : ℚ → ℚ) (currentTime : ℚ)
    (e : Unit) :
    verifyAttendancePattern minuteOfDay currentTime (.error e) = .error e := rfl

/-- On a successfully fetched history the pattern check returns some
boolean (it cannot throw on its own). -/
theorem verifyAttendancePattern_ok (minuteOfDay : ℚ → ℚ) (currentTime : ℚ)
    (records : List AttendanceRecord) :
    ∃ b, verifyAttendancePattern minuteOfDay currentTime (.ok records) = .ok b := by
  unfold verifyAttendancePattern
  dsimp only
  split_ifs <;> exact ⟨_, rfl⟩

/-- `verifyGPSLocation` reports `verified: true` exactly when the
current location was fetched without error, is non-null with truthy
coordinates, lies in office range, and all three anti-spoofing checks
pass. -/
theorem verifyGPSLocation_verified_iff (env : Env) :
    (verifyGPSLocation env).verified = true ↔
      ∃ loc, env.currentLocation = .ok (some loc) ∧
        ¬(loc.latitude = 0 ∨ loc.longitude = 0) ∧
        isInOfficeRange env loc.latitude loc.longitude = true ∧
        checkLocationConsistency env.dist env.recentLocations loc = true ∧
        checkSpeedAnomaly env.dist env.recentLocations loc = true ∧
        checkAltitudeAnomaly loc = true := by
  unfold verifyGPSLocation
  cases h : env.currentLocation with
  | error e => simp [h]
  | ok oloc =>
      cases oloc with
      | none => simp [h]
      | some loc =>
          dsimp only
          split_ifs with h1 h2
          · simp [h, h1]
            tauto
          · simp only [Bool.not_eq_true', Bool.not_eq_false] at h2
            simp [h, h1, h2]
          · simp only [Bool.not_eq_true', Bool.not_eq_false] at h2
            simp [h, h1, h2, Bool.and_eq_true]
            tauto

/-- Closed form of `verifyAttendance`.  Because the time and pattern
contributions are guarded by `if (x.verified)`, the `verified` flag at
the aggregation point equals the GPS outcome alone; a thrown
`getUserAttendance` is the only route into the `catch`. -/
theorem verifyAttendance_eq (env : Env) (type : CheckType) :
    verifyAttendance env type =
      match env.userAttendance with
      | .error _ =>
          { verified := env.manualOutcome, method := .manual_fallback,
            location := if gpsAccepted env then (verifyGPSLocation env).location else none,
            verificationLevel := none }
      | .ok _ =>
          if gpsAccepted env then
            { verified := true, method := .gps,
              location := (verifyGPSLocation env).location,
              verificationLevel := some "high" }
          else
            { verified := env.manualOutcome, method := .manual, location := none,
              verificationLevel := some "low" } := by
  unfold verifyAttendance gpsAccepted
  cases hU : env.userAttendance with
  | error e =>
      rw [verifyAttendancePattern_error]
      cases hA : env.antiSpoofing <;>
        cases hG : (verifyGPSLocation env).verified <;>
          cases hT : verifyAttendanceTime env.nowMinutes env.workStart type <;>
            simp [hA, hG, hT]
  | ok records =>
      obtain ⟨b, hb⟩ := verifyAttendancePattern_ok env.minuteOfDay env.nowMinutes records
      rw [hb]
      cases hA : env.antiSpoofing <;>
        cases hG : (verifyGPSLocation env).verified <;>
          cases hT : verifyAttendanceTime env.nowMinutes env.workStart type <;>
            cases b <;>
              simp [hA, hG, hT]

/-- The population variance computed by `calculateStandardDeviation`
is nonnegative (it is a mean of squares). -/
theorem calculateVariance_nonneg (numbers : List ℚ) : 0 ≤ calculateVariance numbers := by
  unfold calculateVariance mean
  dsimp only
  apply div_nonneg
  · apply List.sum_nonneg
    intro x hx
    simp only [List.mem_map] at hx
    obtain ⟨n, -, rfl⟩ := hx
    positivity
  · positivity

/-- For nonnegative `v`, `|x| ≤ 2·√v` is the squared comparison
`x² ≤ 4·v`; this is the algebraic fact that lets the embedding keep the
source's `timeDiff ≤ Math.sqrt(avgSquareDiff) * 2` test inside `ℚ`. -/
theorem abs_le_two_sqrt_iff (x v : ℝ) (hv : 0 ≤ v) :
    |x| ≤ 2 * Real.sqrt v ↔ x ^ 2 ≤ 4 * v := by
  have h4 : Real.sqrt (4 * v) = 2 * Real.sqrt v := by
    rw [show (4 : ℝ) * v = 2 ^ 2 * v by ring,
      Real.sqrt_mul (by norm_num : (0 : ℝ) ≤ 2 ^ 2) v,
      Real.sqrt_sq (by norm_num : (0 : ℝ) ≤ 2)]
  rw [← h4, ← Real.sqrt_sq_eq_abs,
    Real.sqrt_le_sqrt_iff (by nlinarith : (0 : ℝ) ≤ 4 * v)]

/-- On a non-throwing history whose filtered check-in minute list is
nonempty, the pattern check reduces to the squared two-sigma test. -/
theorem verifyAttendancePattern_ok_nonempty (minuteOfDay : ℚ → ℚ) (currentTime : ℚ)
    (records : List AttendanceRecord) (h : checkInMinutes minuteOfDay records ≠ []) :
    verifyAttendancePattern minuteOfDay currentTime (.ok records) =
      .ok (decide (|currentTime - mean (checkInMinutes minuteOfDay records)| ^ 2 ≤
        4 * calculateVariance (checkInMinutes minuteOfDay records))) := by
  have hrec : records ≠ [] := by
    intro hr
    rw [hr] at h
    exact h rfl
  unfold verifyAttendancePattern
  dsimp only
  rw [if_neg (by simpa [List.length_eq_zero] using hrec),
    if_neg (by simpa [List.length_eq_zero] using h)]

/-! ### Claims -/

/-- C1: the spec demands that the overall `verified` flag equal the
conjunction of the four checks, the time-window and pattern checks each
being able to veto a positive GPS outcome.  The code violates this: the
veto assignments are guarded by `if (timeVerification.verified)` /
`if (patternVerification.verified)`, so they only execute when the
check passed, where `verified && true` is a no-op.  Concretely, at
minute 700 the check-in time window (480 ± 120) fails, and with a
history of check-ins at exactly minute 480 the pattern check fails at
minute 520, yet in both cases the verdict still has `verified = true`
and `method = 'gps'`. -/
theorem C1_failing_time_or_pattern_does_not_veto :
    verifyAttendanceTime timeFailEnv.nowMinutes timeFailEnv.workStart .check_in = false ∧
    (verifyAttendance timeFailEnv .check_in).verified = true ∧
    (verifyAttendance timeFailEnv .check_in).method = .gps ∧
    verifyAttendancePattern patternFailEnv.minuteOfDay patternFailEnv.nowMinutes
      patternFailEnv.userAttendance = .ok false ∧
    (verifyAttendance patternFailEnv .check_in).verified = true ∧
    (verifyAttendance patternFailEnv .check_in).method = .gps := by
  refine ⟨?_, ?_, ?_, ?_, ?_, ?_⟩ <;>
    norm_num [verifyAttendance, verifyGPSLocation, isInOfficeRange,
      checkLocationConsistency, checkSpeedAnomaly, checkAltitudeAnomaly,
      verifyAttendanceTime, verifyAttendancePattern, checkInMinutes, mean,
      calculateVariance, timeFailEnv, patternFailEnv, baseEnv, baseLoc,
      List.replicate, List.filterMap_cons]

/-- C2 counterexample: with the office 600 m away (beyond the 500 m
maximum), every other automated check passing and the manual
confirmation granted, `verifyAttendance` still returns a verdict with
`verified = true` (method `manual`), so "the verdict … has
verified = false, regardless of whether all other checks pass" is false
as stated. -/
theorem C2_counterexample :
    farEnv.dist baseLoc.latitude baseLoc.longitude farEnv.officeLat farEnv.officeLng = 600 ∧
    farEnv.maxDistance = 500 ∧
    farEnv.currentLocation = .ok (some baseLoc) ∧
    verifyAttendanceTime farEnv.nowMinutes farEnv.workStart .check_in = true ∧
    checkLocationConsistency farEnv.dist farEnv.recentLocations baseLoc = true ∧
    checkSpeedAnomaly farEnv.dist farEnv.recentLocations baseLoc = true ∧
    checkAltitudeAnomaly baseLoc = true ∧
    (verifyAttendance farEnv .check_in).verified = true := by
  refine ⟨rfl, rfl, rfl, ?_, rfl, rfl, rfl, ?_⟩ <;>
    norm_num [verifyAttendance, verifyGPSLocation, isInOfficeRange,
      checkLocationConsistency, checkSpeedAnomaly, checkAltitudeAnomaly,
      verifyAttendanceTime, verifyAttendancePattern, farEnv, baseEnv, baseLoc]

/-- C2 (amended): for any current location farther from the office than
the configured max distance, the GPS method is rejected: the verdict's
`method` is never `gps`, and its `verified` flag equals the
manual-confirmation outcome (in particular it is `false` whenever the
manual confirmation is denied), regardless of the other checks. -/
theorem C2_out_of_range_rejects_gps (env : Env) (type : CheckType) (loc : Location)
    (hloc : env.currentLocation = .ok (some loc))
    (hfar : env.maxDistance <
      env.dist loc.latitude loc.longitude env.officeLat env.officeLng) :
    (verifyAttendance env type).method ≠ .gps ∧
    (verifyAttendance env type).verified = env.manualOutcome := by
  have hrange : isInOfficeRange env loc.latitude loc.longitude = false := by
    simp only [isInOfficeRange, decide_eq_false_iff_not, not_le]
    exact hfar
  have hg : (verifyGPSLocation env).verified = false := by
    rw [← Bool.not_eq_true, verifyGPSLocation_verified_iff]
    rintro ⟨loc', hloc', -, hin, -⟩
    rw [hloc, Except.ok.injEq, Option.some.injEq] at hloc'
    rw [← hloc', hrange] at hin
    exact Bool.false_ne_true hin
  have hacc : gpsAccepted env = false := by
    simp [gpsAccepted, hg]
  rw [verifyAttendance_eq]
  cases hU : env.userAttendance <;> simp [hacc]

/-- C2 witness: the amended statement at the concrete out-of-range
environment of the counterexample. -/
theorem C2_witness :
    (verifyAttendance farEnv .check_in).method ≠ .gps ∧
    (verifyAttendance farEnv .check_in).verified = farEnv.manualOutcome :=
  C2_out_of_range_rejects_gps farEnv .check_in baseLoc rfl
    (by norm_num [farEnv, baseEnv, baseLoc])

/-- C3: with anti-spoofing configured on, a valid (truthy-coordinate)
in-range location, all three spoofing checks passing, the time-window
check passing and an empty attendance history, the verdict is
`verified = true` with `method = 'gps'`. -/
theorem C3_all_checks_pass_gives_gps (env : Env) (type : CheckType) (loc : Location)
    (hspoof : env.antiSpoofing = true)
    (hloc : env.currentLocation = .ok (some loc))
    (hlat : loc.latitude ≠ 0)
    (hlng : loc.longitude ≠ 0)
    (hrange : env.dist loc.latitude loc.longitude env.officeLat env.officeLng ≤
      env.maxDistance)
    (hcons : checkLocationConsistency env.dist env.recentLocations loc = true)
    (hspeed : checkSpeedAnomaly env.dist env.recentLocations loc = true)
    (halt : checkAltitudeAnomaly loc = true)
    (htime : verifyAttendanceTime env.nowMinutes env.workStart type = true)
    (hhist : env.userAttendance = .ok []) :
    (verifyAttendance env type).verified = true ∧
    (verifyAttendance env type).method = .gps := by
  have hg : (verifyGPSLocation env).verified = true :=
    (verifyGPSLocation_verified_iff env).mpr
      ⟨loc, hloc, by tauto, by simpa [isInOfficeRange] using hrange, hcons, hspeed, halt⟩
  have hacc : gpsAccepted env = true := by
    simp [gpsAccepted, hspoof, hg]
  rw [verifyAttendance_eq, hhist]
  simp [hacc]

/-- C3 witness: the concrete all-checks-pass environment. -/
theorem C3_witness :
    (verifyAttendance baseEnv .check_in).verified = true ∧
    (verifyAttendance baseEnv .check_in).method = .gps :=
  C3_all_checks_pass_gives_gps baseEnv .check_in baseLoc rfl rfl
    (by norm_num [baseLoc]) (by norm_num [baseLoc])
    (by norm_num [baseEnv, baseLoc]) rfl rfl rfl
    (by norm_num [verifyAttendanceTime, baseEnv]) rfl

/-- C4: when the location provider or the history provider throws, the
exception is absorbed (the embedding of `verifyAttendance` is total),
the flow falls back to the manual-confirmation step, and the verdict
has `method ∈ {manual, manual_fallback}` with `verified` equal to the
manual-confirmation outcome. -/
theorem C4_provider_error_falls_back_to_manual (env : Env) (type : CheckType)
    (h : env.currentLocation = .error () ∨ env.userAttendance = .error ()) :
    ((verifyAttendance env type).method = .manual ∨
      (verifyAttendance env type).method = .manual_fallback) ∧
    (verifyAttendance env type).verified = env.manualOutcome := by
  rw [verifyAttendance_eq]
  cases hU : env.userAttendance with
  | error e => simp
  | ok records =>
      have hloc : env.currentLocation = .error () := by
        rcases h with h | h
        · exact h
        · rw [hU] at h
          exact absurd h (by simp)
      have hg : (verifyGPSLocation env).verified = false := by
        rw [← Bool.not_eq_true, verifyGPSLocation_verified_iff]
        rintro ⟨loc, hl, -⟩
        rw [hloc] at hl
        exact absurd hl (by simp)
      have hacc : gpsAccepted env = false := by
        simp [gpsAccepted, hg]
      simp [hacc]

/-- C4 witness: the location provider throwing at the otherwise
all-good environment yields a manual verdict with the (denied) manual
outcome. -/
theorem C4_witness :
    ((verifyAttendance { baseEnv with currentLocation := .error () } .check_in).method =
        .manual ∨
      (verifyAttendance { baseEnv with currentLocation := .error () } .check_in).method =
        .manual_fallback) ∧
    (verifyAttendance { baseEnv with currentLocation := .error () } .check_in).verified =
      { baseEnv with currentLocation := .error () }.manualOutcome :=
  C4_provider_error_falls_back_to_manual _ .check_in (Or.inl rfl)

/-- C5: the time-window check passes a check-in iff
`|currentMinutes − workStartMinutes| ≤ 120` (boundary inclusive:
workStart ± 120 passes, workStart ± 121 fails), and passes a check-out
iff `workStartMinutes ≤ currentMinutes ≤ workStartMinutes + 600`. -/
theorem C5_time_window (currentTime workStart : ℚ) :
    (verifyAttendanceTime currentTime workStart .check_in = true ↔
      |currentTime - workStart| ≤ 120) ∧
    (verifyAttendanceTime currentTime workStart .check_out = true ↔
      workStart ≤ currentTime ∧ currentTime ≤ workStart + 600) ∧
    verifyAttendanceTime (workStart + 120) workStart .check_in = true ∧
    verifyAttendanceTime (workStart - 120) workStart .check_in = true ∧
    verifyAttendanceTime (workStart + 121) workStart .check_in = false ∧
    verifyAttendanceTime (workStart - 121) workStart .check_in = false := by
  refine ⟨by simp [verifyAttendanceTime], by simp [verifyAttendanceTime], ?_, ?_, ?_, ?_⟩ <;>
    simp [verifyAttendanceTime, abs_le] <;> norm_num

/-- C6: the location-consistency check passes trivially on an empty
recent-location list, and otherwise passes iff the distance to the most
recent prior sample is at most 50 m/s times the elapsed seconds
(inclusive comparison). -/
theorem C6_consistency_check (dist : DistFn) (prior : List Location)
    (lastLoc loc : Location) :
    checkLocationConsistency dist [] loc = true ∧
    (checkLocationConsistency dist (prior ++ [lastLoc]) loc = true ↔
      dist lastLoc.latitude lastLoc.longitude loc.latitude loc.longitude ≤
        50 * ((loc.timestamp - lastLoc.timestamp) / 1000)) := by
  constructor
  · rfl
  · simp [checkLocationConsistency, List.getLast?_concat]

/-- C7: the altitude check passes any present altitude between 800 and
2000 inclusive (both endpoints pass), fails 799 and 2001, and passes
trivially when no altitude is carried. -/
theorem C7_altitude_check (lat lng acc ts : ℚ) :
    (∀ a : ℚ, 800 ≤ a → a ≤ 2000 →
      checkAltitudeAnomaly ⟨lat, lng, acc, some a, ts⟩ = true) ∧
    checkAltitudeAnomaly ⟨lat, lng, acc, some 800, ts⟩ = true ∧
    checkAltitudeAnomaly ⟨lat, lng, acc, some 2000, ts⟩ = true ∧
    checkAltitudeAnomaly ⟨lat, lng, acc, some 799, ts⟩ = false ∧
    checkAltitudeAnomaly ⟨lat, lng, acc, some 2001, ts⟩ = false ∧
    checkAltitudeAnomaly ⟨lat, lng, acc, none, ts⟩ = true := by
  refine ⟨?_, ?_, ?_, ?_, ?_, rfl⟩
  · intro a h1 h2
    have ha : a ≠ 0 := by intro h; rw [h] at h1; norm_num at h1
    simp [checkAltitudeAnomaly, ha, h1, h2]
  all_goals norm_num [checkAltitudeAnomaly]

/-- C7 witness: a present altitude of 1000 passes the range check. -/
theorem C7_witness :
    checkAltitudeAnomaly ⟨35, 51, 10, some 1000, 0⟩ = true :=
  (C7_altitude_check 35 51 10 0).1 1000 (by norm_num) (by norm_num)

/-- C8: on a nonempty check-in history the pattern check passes iff
the current minutes-since-midnight lies within two population standard
deviations (`√` of the mean squared deviation) of the mean historical
check-in minute, boundary inclusive; with no history it passes
trivially; and with a history of identical check-in times (standard
deviation 0) the exact time passes while one minute off fails. -/
theorem C8_pattern_two_sigma (minuteOfDay : ℚ → ℚ) (currentTime : ℚ)
    (records : List AttendanceRecord) (h : checkInMinutes minuteOfDay records ≠ []) :
    (verifyAttendancePattern minuteOfDay currentTime (.ok records) = .ok true ↔
      |(currentTime : ℝ) - (mean (checkInMinutes minuteOfDay records) : ℝ)| ≤
        2 * Real.sqrt ((calculateVariance (checkInMinutes minuteOfDay records) : ℝ))) ∧
    verifyAttendancePattern minuteOfDay currentTime (.ok []) = .ok true ∧
    verifyAttendancePattern (fun t => t) 480
      (.ok (List.replicate 3 { type := "check_in", timestamp := some 480 })) = .ok true ∧
    verifyAttendancePattern (fun t => t) 481
      (.ok (List.replicate 3 { type := "check_in", timestamp := some 480 })) = .ok false := by
  refine ⟨?_, rfl, ?_, ?_⟩
  · rw [verifyAttendancePattern_ok_nonempty minuteOfDay currentTime records h,
      Except.ok.injEq, decide_eq_true_eq,
      abs_le_two_sqrt_iff _ _ (by exact_mod_cast calculateVariance_nonneg _), sq_abs]
    constructor
    · intro hq
      exact_mod_cast hq
    · intro hr
      exact_mod_cast hr
  · norm_num [verifyAttendancePattern, checkInMinutes, mean, calculateVariance,
      List.replicate, List.filterMap_cons]
  · norm_num [verifyAttendancePattern, checkInMinutes, mean, calculateVariance,
      List.replicate, List.filterMap_cons]

/-- C8 witness: the no-history case, with the hypothesis discharged at
a one-record history. -/
theorem C8_witness :
    verifyAttendancePattern (fun t => t) 480 (Except.ok []) = .ok true :=
  (C8_pattern_two_sigma (fun t => t) 480 [{ type := "check_in", timestamp := some 480 }]
      (by norm_num [checkInMinutes, List.filterMap_cons])).2.1

/-- C9: a verdict carries `method = 'gps'` only if anti-spoofing was
on, the location was fetched, it was within the permitted office range
and all three spoofing sub-checks passed; any other verdict is marked
`manual` or `manual_fallback` (so a single passing sub-check can never
by itself produce a `gps`-verified verdict). -/
theorem C9_gps_method_requires_all_checks (env : Env) (type : CheckType) :
    ((verifyAttendance env type).method = .gps →
      env.antiSpoofing = true ∧
      ∃ loc, env.currentLocation = Except.ok (some loc) ∧
        isInOfficeRange env loc.latitude loc.longitude = true ∧
        checkLocationConsistency env.dist env.recentLocations loc = true ∧
        checkSpeedAnomaly env.dist env.recentLocations loc = true ∧
        checkAltitudeAnomaly loc = true) ∧
    ((verifyAttendance env type).method ≠ .gps →
      (verifyAttendance env type).method = .manual ∨
      (verifyAttendance env type).method = .manual_fallback) := by
  constructor
  · intro h
    have hacc : gpsAccepted env = true := by
      by_contra hacc'
      rw [Bool.not_eq_true] at hacc'
      rw [verifyAttendance_eq] at h
      cases hU : env.userAttendance with
      | error e => rw [hU] at h; simp at h
      | ok records => rw [hU] at h; simp [hacc'] at h
    have hand : env.antiSpoofing = true ∧ (verifyGPSLocation env).verified = true := by
      simpa [gpsAccepted, Bool.and_eq_true] using hacc
    obtain ⟨loc, h1, -, h3, h4, h5, h6⟩ :=
      (verifyGPSLocation_verified_iff env).mp hand.2
    exact ⟨hand.1, loc, h1, h3, h4, h5, h6⟩
  · intro h
    rcases hmeth : (verifyAttendance env type).method with _ | _ | _
    · exact absurd hmeth h
    · exact Or.inl rfl
    · exact Or.inr rfl

/-- C9 witness: at the all-good environment the verdict's method is
`gps`, and the invariant yields the range and spoofing facts. -/
theorem C9_witness :
    baseEnv.antiSpoofing = true ∧
    ∃ loc, baseEnv.currentLocation = Except.ok (some loc) ∧
      isInOfficeRange baseEnv loc.latitude loc.longitude = true ∧
      checkLocationConsistency baseEnv.dist baseEnv.recentLocations loc = true ∧
      checkSpeedAnomaly baseEnv.dist baseEnv.recentLocations loc = true ∧
      checkAltitudeAnomaly loc = true :=
  (C9_gps_method_requires_all_checks baseEnv .check_in).1
    (by norm_num [verifyAttendance, verifyGPSLocation, isInOfficeRange,
      checkLocationConsistency, checkSpeedAnomaly, checkAltitudeAnomaly,
      verifyAttendanceTime, verifyAttendancePattern, baseEnv, baseLoc])

/-- C10: a fetched location whose latitude or longitude is exactly 0 is
rejected by the truthiness test `!location.latitude ||
!location.longitude`: `verifyGPSLocation` fails closed with
`verified: false` and the invalid-location reason. -/
theorem C10_zero_coordinate_fails_closed (env : Env) (loc : Location)
    (hloc : env.currentLocation = .ok (some loc))
    (hzero : loc.latitude = 0 ∨ loc.longitude = 0) :
    verifyGPSLocation env =
      { verified := false, location := none, reason := some "موقعیت نامعتبر" } := by
  unfold verifyGPSLocation
  rw [hloc]
  dsimp only
  rw [if_pos hzero]

/-- C10 witness: latitude exactly 0 at an otherwise valid, in-range
location is reported invalid. -/
theorem C10_witness :
    verifyGPSLocation
        { baseEnv with currentLocation := .ok (some { baseLoc with latitude := 0 }) } =
      { verified := false, location := none, reason := some "موقعیت نامعتبر" } :=
  C10_zero_coordinate_fails_closed _ { baseLoc with latitude := 0 } rfl (Or.inl rfl)

end Jadid
